import Mathlib

/-!
Verification development for the TessChess bitboard chess engine
(`BitboardHelpers.py`, `Attacks.py`, `Board.py`, `Move.py`, `Position.py`).

Bitboards are modelled as `Nat` kept below `2^64`; every numpy `uint64`
operation is embedded with its wrap-around made explicit.  numpy left/right
shifts are guarded: a shift count `>= 64` yields `0` (numpy's `npy_lshift` /
`npy_rshift` helpers), and converting a negative Python int offset to
`np.uint64` wraps it to a value `>= 2^63`, hence also a zero result.  This is
captured by `hot_shift` and by the range guard in `set_bit`.

Python code that can raise (bit-scanning, `dict`/`set` `KeyError`, the
interactive promotion prompt, the `TypeError` latent in `has_king_move`) is
embedded in `Except String`.

`Constants.py` is not among the provided source files; the constants it
supplies (square numbering, rank/file masks, piece and colour tags, castling
routes) are modelled from the spec's data model: squares 0-63 rank-major from
White's first rank (0 = a1, 63 = h8), `file = square mod 8`,
`rank = square div 8`, `Colour.WHITE = 0`, `Colour.BLACK = 1`, `HOT = 1`.
Python sets of square indices are modelled as ascending lists, matching
CPython's iteration order for the small-integer sets this engine builds.
-/

def mask64 : Nat := 2 ^ 64 - 1

/-- Complement within a 64-bit word, modelling numpy `~x` on `uint64`. -/
def compl64 (x : Nat) : Nat := mask64 ^^^ (x &&& mask64)

/-- Model of `HOT << np.uint64(i)` where `i` is a Python int that numpy wraps
modulo `2^64`: a negative offset wraps to at least `2^63`, and any shift count
of 64 or more yields zero. -/
def hot_shift (i : Int) : Nat :=
  if 0 ≤ i ∧ i < 64 then 1 <<< i.toNat else 0

/-- Embedding of `BitboardHelpers.set_bit`: `bitboard | (1 << bit)` with the
numpy shift guard. -/
def set_bit (bitboard : Nat) (bit : Int) : Nat :=
  bitboard ||| hot_shift bit

/-- Embedding of `BitboardHelpers.set_bit_multi`. -/
def set_bit_multi (bitboard : Nat) (bits : List Int) : Nat :=
  bits.foldl set_bit bitboard

/-- Embedding of `BitboardHelpers.clear_bit`: `bitboard & ~(1 << bit)`. -/
def clear_bit (bitboard : Nat) (bit : Int) : Nat :=
  bitboard &&& compl64 (hot_shift bit)

/-- Embedding of `BitboardHelpers.clear_bit_multi`. -/
def clear_bit_multi (bitboard : Nat) (bits : List Int) : Nat :=
  bits.foldl clear_bit bitboard

/-- Python `range(start, stop, step)` over integers; fuel 128 covers every
range the source builds (none has more than 64 elements). -/
def pyRangeAux : Nat → Int → Int → Int → List Int
  | 0, _, _, _ => []
  | fuel + 1, start, stop, step =>
    if (0 < step ∧ start < stop) ∨ (step < 0 ∧ stop < start) then
      start :: pyRangeAux fuel (start + step) stop step
    else []

def pyRange (start stop step : Int) : List Int :=
  pyRangeAux 128 start stop step

/-- Floor of `log2`, as computed by Python's `math.log2` followed by `int()`
on the 64-bit values the scanners produce (always exact powers of two there). -/
def floorLog2 (n : Nat) : Nat :=
  (List.range 64).foldl (fun acc i => if 2 ^ i ≤ n then i else acc) 0

/-- Embedding of `BitboardHelpers.forward_bitscan`: index of the least
significant set bit via `bitboard & -bitboard` (numpy negation wraps modulo
`2^64`); raises on an empty bitboard. -/
def forward_bitscan (bitboard : Nat) : Except String Nat :=
  if bitboard &&& mask64 = 0 then
    .error "You can not scan an empty/non-existing bitboard..."
  else
    .ok (floorLog2 (bitboard &&& ((2 ^ 64 - bitboard % 2 ^ 64) % 2 ^ 64)))

/-- Embedding of `BitboardHelpers.backward_bitscan`: smears the most
significant bit downward, adds one (numpy `uint64` addition wraps modulo
`2^64`), shifts right and takes `log2`.  When bit 63 is set the addition
wraps to zero and `math.log2(0)` raises a ValueError, modelled as the
"math domain error" case. -/
def backward_bitscan (bitboard : Nat) : Except String Nat :=
  if bitboard &&& mask64 = 0 then
    .error "You can not scan an empty/non-existing bitboard..."
  else
    let b := bitboard &&& mask64
    let b := b ||| (b >>> 1)
    let b := b ||| (b >>> 2)
    let b := b ||| (b >>> 4)
    let b := b ||| (b >>> 8)
    let b := b ||| (b >>> 16)
    let b := b ||| (b >>> 32)
    let b := (b + 1) % 2 ^ 64
    if b >>> 1 = 0 then .error "math domain error"
    else .ok (floorLog2 (b >>> 1))

/-- Embedding of `BitboardHelpers.bitboard_to_squares`: ascending list of the
set-bit indices. -/
def bitboard_to_squares (bitboard : Nat) : List Nat :=
  (List.range 64).filter fun i => Nat.testBit bitboard i

/-! ### File and rank masks (modelled from the spec: `Constants.File.hexA`
etc., squares rank-major with `file = square mod 8`). -/

def hexA : Nat := 0x0101010101010101
def hexB : Nat := 0x0202020202020202
def hexG : Nat := 0x4040404040404040
def hexH : Nat := 0x8080808080808080

/-! ### Ray generators (`Attacks.py`)

Each ray is built exactly as in the source: a Python `range` of offsets (or of
absolute squares for the diagonals), `set_bit_multi`, then clearing the origin
square.  Squares that fall off the 0-63 board become numpy shifts of count
`>= 64` (or wrapped negatives) and set nothing. -/

def south_ray (bitboard : Nat) (from_square : Int) : Nat :=
  clear_bit (set_bit_multi bitboard ((pyRange 0 (-64) (-8)).map (from_square + ·))) from_square

def north_ray (bitboard : Nat) (from_square : Int) : Nat :=
  clear_bit (set_bit_multi bitboard ((pyRange 0 64 8).map (from_square + ·))) from_square

def west_ray (bitboard : Nat) (from_square : Int) : Nat :=
  clear_bit (set_bit_multi bitboard ((pyRange 0 (-(from_square % 8) - 1) (-1)).map (from_square + ·))) from_square

def east_ray (bitboard : Nat) (from_square : Int) : Nat :=
  clear_bit (set_bit_multi bitboard ((pyRange 0 (from_square % 8) 1).map (from_square + ·))) from_square

def southeast_ray (bitboard : Nat) (from_square : Int) : Nat :=
  clear_bit (set_bit_multi bitboard (pyRange from_square 0 (-7))) from_square

def southwest_ray (bitboard : Nat) (from_square : Int) : Nat :=
  clear_bit (set_bit_multi bitboard (pyRange from_square 0 (-9))) from_square

def northwest_ray (bitboard : Nat) (from_square : Int) : Nat :=
  clear_bit (set_bit_multi bitboard (pyRange from_square 63 7)) from_square

def northeast_ray (bitboard : Nat) (from_square : Int) : Nat :=
  clear_bit (set_bit_multi bitboard (pyRange from_square 64 9)) from_square

def file_attack (from_square : Int) : Nat :=
  clear_bit (north_ray 0 from_square ||| south_ray 0 from_square) from_square

def rank_attack (from_square : Int) : Nat :=
  clear_bit (east_ray 0 from_square ||| west_ray 0 from_square) from_square

def diagonal_attack (from_square : Int) : Nat :=
  clear_bit (northeast_ray 0 from_square ||| northwest_ray 0 from_square |||
    southeast_ray 0 from_square ||| southwest_ray 0 from_square) from_square

/-- Embedding of `Attacks.generate_knight_attack_bitboard`; membership in
`File.A | File.B` (resp. `File.G | File.H`) is `file index <= 1` (resp.
`>= 6`). -/
def generate_knight_attack_bitboard (from_square : Nat) : Nat :=
  [6, 10, 15, 17, -6, -10, -15, -17].foldl
    (fun bitboard i =>
      let bitboard := bitboard ||| set_bit bitboard ((from_square : Int) + i)
      let bitboard :=
        if from_square % 8 ≤ 1 then bitboard &&& compl64 (hexG ||| hexH) else bitboard
      if 6 ≤ from_square % 8 then bitboard &&& compl64 (hexA ||| hexB) else bitboard)
    0

def generate_rook_attack_bitboard (from_square : Nat) : Nat :=
  file_attack from_square ||| rank_attack from_square

def generate_bishop_attack_bitboard (from_square : Nat) : Nat :=
  diagonal_attack from_square

def generate_queen_attack_bitboard (from_square : Nat) : Nat :=
  diagonal_attack from_square ||| file_attack from_square ||| rank_attack from_square

/-- Embedding of `Attacks.generate_king_attack_bitboard`. -/
def generate_king_attack_bitboard (from_square : Nat) : Nat :=
  let bitboard := [(-8 : Int), 8].foldl
    (fun bitboard i => bitboard ||| hot_shift ((from_square : Int) + i)) 0
  let bitboard := [(-7 : Int), 1, 9].foldl
    (fun bitboard i => bitboard ||| (hot_shift ((from_square : Int) + i) &&& compl64 hexA)) bitboard
  [(-9 : Int), -1, 7].foldl
    (fun bitboard i => bitboard ||| (hot_shift ((from_square : Int) + i) &&& compl64 hexH)) bitboard

/-- Membership in `Rank.x2` (White's pawn home rank, squares 8-15). -/
def in_rank2 (square : Nat) : Bool := 8 ≤ square && square < 16

/-- Membership in `Rank.x7` (Black's pawn home rank, squares 48-55). -/
def in_rank7 (square : Nat) : Bool := 48 ≤ square && square < 56

def generate_white_pawn_attack_bitboard (from_square : Nat) : Nat :=
  let bitboard := hot_shift ((from_square : Int) + 9) &&& compl64 hexA
  bitboard ||| (hot_shift ((from_square : Int) + 7) &&& compl64 hexH)

def generate_black_pawn_attack_bitboard (from_square : Nat) : Nat :=
  let bitboard := hot_shift ((from_square : Int) - 9) &&& compl64 hexA
  bitboard ||| (hot_shift ((from_square : Int) - 7) &&& compl64 hexH)

def generate_white_pawn_move_bitboard (from_square : Nat) : Nat :=
  let bitboard := hot_shift ((from_square : Int) + 8)
  if in_rank2 from_square then bitboard ||| hot_shift ((from_square : Int) + 16) else bitboard

def generate_black_pawn_move_bitboard (from_square : Nat) : Nat :=
  let bitboard := hot_shift ((from_square : Int) - 8)
  if in_rank7 from_square then bitboard ||| hot_shift ((from_square : Int) - 16) else bitboard

/-! ### Data model (`Constants.Colour`, `Constants.Piece`, `Move.py`) -/

/-- Colour tags; `Colour.WHITE = 0`, `Colour.BLACK = 1` in the source, with
Python `not colour` flipping between them. -/
inductive Colour
  | white
  | black
deriving DecidableEq, Repr

/-- Model of Python `not colour` on the 0/1 colour encoding. -/
def Colour.flip : Colour → Colour
  | .white => .black
  | .black => .white

/-- The 12 piece kinds of `Constants.Piece`. -/
inductive Piece
  | wP | wR | wN | wB | wQ | wK
  | bP | bR | bN | bB | bQ | bK
deriving DecidableEq, Repr

/-- Membership set `Piece.white_pieces`. -/
def Piece.whitePieces : List Piece := [.wP, .wR, .wN, .wB, .wQ, .wK]

/-- Insertion order of `Position.set_initial_piece_locations`, which fixes the
iteration order of the `piece_map` dict. -/
def pieceOrder : List Piece :=
  [.wP, .wR, .wN, .wB, .wQ, .wK, .bP, .bR, .bN, .bB, .bQ, .bK]

/-- Embedding of `Move`: the GUI may hand `make_move` a move whose `piece`
field is not one of the 12 piece kinds (`None` when the first click selected
an empty square), hence `Option Piece`.  The flag fields start `False` and are
set during validation. -/
structure Move where
  piece : Option Piece
  from_square : Nat
  to_square : Nat
  is_capture : Bool := false
  is_en_passant : Bool := false
  is_castling : Bool := false
  is_promotion : Bool := false
deriving DecidableEq, Repr

/-- Embedding of the `Move.colour` property: any piece outside
`Piece.white_pieces`, including `None`, is reported as Black. -/
def Move.colour (m : Move) : Colour :=
  match m.piece with
  | some p => if p ∈ Piece.whitePieces then .white else .black
  | none => .black

/-- Embedding of `MoveResult`. -/
structure MoveResult where
  is_checkmate : Bool := false
  is_king_check : Bool := false
  is_stalemate : Bool := false
  is_draw_claim_allowed : Bool := false
  is_illegal_move : Bool := false
  fen : Option String := some ""
deriving DecidableEq, Repr

/-- A Python set of square indices, modelled as a strictly ascending list
(CPython iteration order for the engine's small-integer sets). -/
abbrev SquareSet := List Nat

/-- Set insertion keeping the ascending order. -/
def SquareSet.insert (l : SquareSet) (x : Nat) : SquareSet :=
  match l with
  | [] => [x]
  | y :: ys =>
    if x < y then x :: y :: ys
    else if x = y then y :: ys
    else y :: SquareSet.insert ys x

/-- Embedding of `set.remove`, whose `KeyError` on a missing element is an
`Except` error. -/
def SquareSet.removeE (l : SquareSet) (x : Nat) : Except String SquareSet :=
  if x ∈ l then .ok (l.filter (· ≠ x)) else .error "KeyError: set.remove"

/-- Embedding of the `piece_map` dict `Piece -> set of squares`. -/
structure PieceMap where
  wP : SquareSet
  wR : SquareSet
  wN : SquareSet
  wB : SquareSet
  wQ : SquareSet
  wK : SquareSet
  bP : SquareSet
  bR : SquareSet
  bN : SquareSet
  bB : SquareSet
  bQ : SquareSet
  bK : SquareSet
deriving DecidableEq, Repr

def PieceMap.get (pm : PieceMap) : Piece → SquareSet
  | .wP => pm.wP
  | .wR => pm.wR
  | .wN => pm.wN
  | .wB => pm.wB
  | .wQ => pm.wQ
  | .wK => pm.wK
  | .bP => pm.bP
  | .bR => pm.bR
  | .bN => pm.bN
  | .bB => pm.bB
  | .bQ => pm.bQ
  | .bK => pm.bK

def PieceMap.set (pm : PieceMap) : Piece → SquareSet → PieceMap
  | .wP, v => { pm with wP := v }
  | .wR, v => { pm with wR := v }
  | .wN, v => { pm with wN := v }
  | .wB, v => { pm with wB := v }
  | .wQ, v => { pm with wQ := v }
  | .wK, v => { pm with wK := v }
  | .bP, v => { pm with bP := v }
  | .bR, v => { pm with bR := v }
  | .bN, v => { pm with bN := v }
  | .bB, v => { pm with bB := v }
  | .bQ, v => { pm with bQ := v }
  | .bK, v => { pm with bK := v }

/-- Embedding of `Position.set_initial_piece_locations`. -/
def initialPieceMap : PieceMap where
  wP := [8, 9, 10, 11, 12, 13, 14, 15]
  wR := [0, 7]
  wN := [1, 6]
  wB := [2, 5]
  wQ := [3]
  wK := [4]
  bP := [48, 49, 50, 51, 52, 53, 54, 55]
  bR := [56, 63]
  bN := [57, 62]
  bB := [58, 61]
  bQ := [59]
  bK := [60]

/-! ### `Board.py`

The 12 occupancy bitboards.  The static attack tables the Python `Board`
builds once at construction (`knight_attacks`, `rook_attacks`, ...) are the
generator functions above applied to the square, which is exactly how the
dictionaries are filled. -/

structure Board where
  white_pawn : Nat
  white_rook : Nat
  white_knight : Nat
  white_bishop : Nat
  white_queen : Nat
  white_king : Nat
  black_pawn : Nat
  black_rook : Nat
  black_knight : Nat
  black_bishop : Nat
  black_queen : Nat
  black_king : Nat
deriving DecidableEq, Repr

/-- Embedding of `Board.init_pieces`. -/
def initialBoard : Board where
  white_pawn := set_bit_multi 0 ((List.range 8).map fun i => (8 + i : Int))
  white_rook := set_bit_multi 0 [0, 7]
  white_knight := set_bit_multi 0 [1, 6]
  white_bishop := set_bit_multi 0 [2, 5]
  white_queen := set_bit 0 3
  white_king := set_bit 0 4
  black_pawn := set_bit_multi 0 ((List.range 8).map fun i => (48 + i : Int))
  black_rook := set_bit_multi 0 [56, 63]
  black_knight := set_bit_multi 0 [57, 62]
  black_bishop := set_bit_multi 0 [58, 61]
  black_queen := set_bit 0 59
  black_king := set_bit 0 60

def Board.white_pieces (b : Board) : Nat :=
  b.white_king ||| b.white_queen ||| b.white_rook ||| b.white_knight |||
    b.white_bishop ||| b.white_pawn

def Board.black_pieces (b : Board) : Nat :=
  b.black_king ||| b.black_queen ||| b.black_rook ||| b.black_knight |||
    b.black_bishop ||| b.black_pawn

def Board.occupied_squares (b : Board) : Nat :=
  b.black_pieces ||| b.white_pieces

def Board.empty_squares (b : Board) : Nat :=
  compl64 b.occupied_squares

def Board.white_pawn_east_attacks (b : Board) : Nat :=
  ((b.white_pawn <<< 9) &&& mask64) &&& compl64 hexA

def Board.white_pawn_west_attacks (b : Board) : Nat :=
  ((b.white_pawn <<< 7) &&& mask64) &&& compl64 hexH

def Board.white_pawn_attacks (b : Board) : Nat :=
  b.white_pawn_east_attacks ||| b.white_pawn_west_attacks

def Board.black_pawn_east_attacks (b : Board) : Nat :=
  (b.black_pawn >>> 7) &&& compl64 hexA

def Board.black_pawn_west_attacks (b : Board) : Nat :=
  (b.black_pawn >>> 9) &&& compl64 hexH

def Board.black_pawn_attacks (b : Board) : Nat :=
  b.black_pawn_east_attacks ||| b.black_pawn_west_attacks

/-- Embedding of `Board.update_position_bitboards`: each changed piece kind's
bitboard is rebuilt from its square set. -/
def Board.update_position_bitboards (b : Board) (change_map : List (Piece × SquareSet)) : Board :=
  change_map.foldl
    (fun b kv =>
      let bits : Nat := set_bit_multi 0 (kv.2.map (Int.ofNat))
      match kv.1 with
      | .wP => { b with white_pawn := bits }
      | .wR => { b with white_rook := bits }
      | .wN => { b with white_knight := bits }
      | .wB => { b with white_bishop := bits }
      | .wQ => { b with white_queen := bits }
      | .wK => { b with white_king := bits }
      | .bP => { b with black_pawn := bits }
      | .bR => { b with black_rook := bits }
      | .bN => { b with black_knight := bits }
      | .bB => { b with black_bishop := bits }
      | .bQ => { b with black_queen := bits }
      | .bK => { b with black_king := bits })
    b

/-! ### `Position.py` state -/

/-- Embedding of the `Position` instance state: the owned `Board`, the
`piece_map`, the rule bookkeeping, and the 14 dynamic attack/move bitboards.
`castle_rights` is the dict `{WHITE: [kingside, queenside], BLACK: [...]}`
split into two pairs; `king_in_check` is the list `[white, black]`. -/
structure Position where
  board : Board
  piece_map : PieceMap
  colour_to_move : Colour
  castle_rights_white : Bool × Bool
  castle_rights_black : Bool × Bool
  halfmove_clock : Nat
  halfmove : Nat
  en_passant_target : Option Nat
  en_passant_side : Colour
  is_en_passant_capture : Bool
  king_in_check : Bool × Bool
  white_pawn_moves : Nat
  white_pawn_attacks : Nat
  white_rook_attacks : Nat
  white_knight_attacks : Nat
  white_bishop_attacks : Nat
  white_queen_attacks : Nat
  white_king_attacks : Nat
  black_pawn_moves : Nat
  black_pawn_attacks : Nat
  black_rook_attacks : Nat
  black_knight_attacks : Nat
  black_bishop_attacks : Nat
  black_queen_attacks : Nat
  black_king_attacks : Nat
deriving DecidableEq, Repr

def Position.castle_rights (st : Position) : Colour → Bool × Bool
  | .white => st.castle_rights_white
  | .black => st.castle_rights_black

/-- Embedding of `Position.__init__` with a fresh `Board`. -/
def initialPosition : Position where
  board := initialBoard
  piece_map := initialPieceMap
  colour_to_move := .white
  castle_rights_white := (true, true)
  castle_rights_black := (true, true)
  halfmove_clock := 0
  halfmove := 2
  en_passant_target := none
  en_passant_side := .white
  is_en_passant_capture := false
  king_in_check := (false, false)
  white_pawn_moves := 0
  white_pawn_attacks := 0
  white_rook_attacks := 0
  white_knight_attacks := 0
  white_bishop_attacks := 0
  white_queen_attacks := 0
  white_king_attacks := 0
  black_pawn_moves := 0
  black_pawn_attacks := 0
  black_rook_attacks := 0
  black_knight_attacks := 0
  black_bishop_attacks := 0
  black_queen_attacks := 0
  black_king_attacks := 0

def Position.occupied_squares_by_colour (st : Position) : Colour → Nat
  | .black => st.board.black_pieces
  | .white => st.board.white_pieces

def Position.black_attacked_squares (st : Position) : Nat :=
  st.black_rook_attacks ||| st.black_knight_attacks ||| st.black_bishop_attacks |||
    st.black_queen_attacks ||| st.black_king_attacks ||| st.black_pawn_attacks

def Position.white_attacked_squares (st : Position) : Nat :=
  st.white_rook_attacks ||| st.white_knight_attacks ||| st.white_bishop_attacks |||
    st.white_queen_attacks ||| st.white_king_attacks ||| st.white_pawn_attacks

/-- Embedding of `PositionState.__init__` applied to a deep copy of the
position's `__dict__`, followed by `reset_state_to`, i.e. the position that a
rollback restores.  The source initialises `white_knight_attacks`,
`white_rook_attacks`, `white_bishop_attacks`, `white_queen_attacks` and
`white_king_attacks` from `kwargs['white_pawn_attacks']` (and the five black
counterparts from `kwargs['black_pawn_attacks']`), so those ten slots of the
snapshot hold the pawn attack bitboards instead of their own values. -/
def snapshotRestore (st : Position) : Position :=
  { st with
    white_knight_attacks := st.white_pawn_attacks
    white_rook_attacks := st.white_pawn_attacks
    white_bishop_attacks := st.white_pawn_attacks
    white_queen_attacks := st.white_pawn_attacks
    white_king_attacks := st.white_pawn_attacks
    black_knight_attacks := st.black_pawn_attacks
    black_rook_attacks := st.black_pawn_attacks
    black_bishop_attacks := st.black_pawn_attacks
    black_queen_attacks := st.black_pawn_attacks
    black_king_attacks := st.black_pawn_attacks }

/-- Truthiness of `self.en_passant_target` (`None` and `0` are falsy). -/
def epTruthy : Option Nat → Bool
  | none => false
  | some t => t != 0

/-! ### Move classification helpers (`Position.py` lines 450-494) -/

/-- Embedding of `Position.is_capture`. -/
def Position.is_capture (st : Position) (move : Move) : Bool :=
  let to_square := set_bit 0 move.to_square
  match move.colour with
  | .white => to_square &&& st.board.black_pieces != 0
  | .black => to_square &&& st.board.white_pieces != 0

/-- Embedding of `Position.is_promotion` (`Rank.x8` is squares 56-63,
`Rank.x1` squares 0-7). -/
def Position.is_promotion (pawn_move : Move) : Bool :=
  match pawn_move.colour with
  | .white => 56 ≤ pawn_move.to_square && pawn_move.to_square < 64
  | .black => pawn_move.to_square < 8

/-- Embedding of `Position.is_castling` (`Square.E1 = 4`, `G1 = 6`, `C1 = 2`,
`E8 = 60`, `G8 = 62`, `C8 = 58`). -/
def Position.is_castling (move : Move) : Bool :=
  (move.from_square == 4 && (move.to_square == 6 || move.to_square == 2)) ||
  (move.from_square == 60 && (move.to_square == 62 || move.to_square == 58))

/-- Embedding of `Position.get_en_passant_target` (`Rank.x4` is squares
24-31, `Rank.x2` 8-15, `Rank.x5` 32-39, `Rank.x7` 48-55). -/
def Position.get_en_passant_target (move : Move) : Option Nat :=
  match move.piece with
  | some .wP =>
    if (24 ≤ move.to_square && move.to_square < 32) && in_rank2 move.from_square then
      some (move.to_square - 8)
    else none
  | some .bP =>
    if (32 ≤ move.to_square && move.to_square < 40) && in_rank7 move.from_square then
      some (move.to_square + 8)
    else none
  | _ => none

/-! ### Per-piece geometry helpers (`is_not_*`, lines 664-735); the static
tables `self.board.*_attacks[square]` are the generator functions. -/

def Position.is_not_pawn_move (move : Move) : Bool :=
  let to_bitboard := set_bit 0 move.to_square
  match move.colour with
  | .white =>
    (generate_white_pawn_move_bitboard move.from_square |||
      generate_white_pawn_attack_bitboard move.from_square) &&& to_bitboard == 0
  | .black =>
    (generate_black_pawn_move_bitboard move.from_square |||
      generate_black_pawn_attack_bitboard move.from_square) &&& to_bitboard == 0

def Position.is_not_knight_attack (move : Move) : Bool :=
  generate_knight_attack_bitboard move.from_square &&& set_bit 0 move.to_square == 0

def Position.is_not_rook_attack (move : Move) : Bool :=
  generate_rook_attack_bitboard move.from_square &&& set_bit 0 move.to_square == 0

def Position.is_not_bishop_attack (move : Move) : Bool :=
  generate_bishop_attack_bitboard move.from_square &&& set_bit 0 move.to_square == 0

def Position.is_not_queen_attack (move : Move) : Bool :=
  generate_queen_attack_bitboard move.from_square &&& set_bit 0 move.to_square == 0

def Position.is_not_king_attack (move : Move) : Bool :=
  generate_king_attack_bitboard move.from_square &&& set_bit 0 move.to_square == 0

/-! ### Per-piece legality (`is_legal_*_move`, lines 501-657) -/

/-- Embedding of `Position.is_legal_pawn_move`.  Note that the occupancy
check applies only to single pushes (`from == to - 8` / `to + 8`): a double
push is range-checked against the static move table but never tested for
blockers, and the diagonal test consults the dynamic `white_pawn_attacks` /
`black_pawn_attacks` bitboards. -/
def Position.is_legal_pawn_move (st : Position) (move : Move) : Bool :=
  let from_bitboard := set_bit 0 move.from_square
  let to_bitboard := set_bit 0 move.to_square
  let en_passant_target : Nat :=
    match st.en_passant_target with
    | some t => if t ≠ 0 then set_bit 0 t else 0
    | none => 0
  match move.piece with
  | some .wP =>
    if st.board.white_pawn &&& from_bitboard == 0 then false
    else if Position.is_not_pawn_move move then false
    else if (move.from_square : Int) = (move.to_square : Int) - 8 &&
        to_bitboard &&& st.board.occupied_squares != 0 then false
    else if ((move.from_square : Int) = (move.to_square : Int) - 9 ||
        (move.from_square : Int) = (move.to_square : Int) - 7) &&
        (st.white_pawn_attacks &&& to_bitboard) &&&
          compl64 (st.board.black_pieces ||| en_passant_target) != 0 then false
    else true
  | some .bP =>
    if st.board.black_pawn &&& from_bitboard == 0 then false
    else if Position.is_not_pawn_move move then false
    else if (move.from_square : Int) = (move.to_square : Int) + 8 &&
        to_bitboard &&& st.board.occupied_squares != 0 then false
    else if ((move.from_square : Int) = (move.to_square : Int) + 9 ||
        (move.from_square : Int) = (move.to_square : Int) + 7) &&
        (st.black_pawn_attacks &&& to_bitboard) &&&
          compl64 (st.board.white_pieces ||| en_passant_target) != 0 then false
    else true
  | _ => false

def Position.is_legal_knight_move (st : Position) (move : Move) : Bool :=
  let from_bitboard := set_bit 0 move.from_square
  match move.piece with
  | some .wN =>
    if st.board.white_knight &&& from_bitboard == 0 then false
    else !Position.is_not_knight_attack move
  | some .bN =>
    if st.board.black_knight &&& from_bitboard == 0 then false
    else !Position.is_not_knight_attack move
  | _ => false

def Position.is_legal_rook_move (st : Position) (move : Move) : Bool :=
  let from_bitboard := set_bit 0 move.from_square
  match move.piece with
  | some .wR =>
    if st.board.white_rook &&& from_bitboard == 0 then false
    else !Position.is_not_rook_attack move
  | some .bR =>
    if st.board.black_rook &&& from_bitboard == 0 then false
    else !Position.is_not_rook_attack move
  | _ => false

def Position.is_legal_bishop_move (st : Position) (move : Move) : Bool :=
  let from_bitboard := set_bit 0 move.from_square
  match move.piece with
  | some .wB =>
    if st.board.white_bishop &&& from_bitboard == 0 then false
    else !Position.is_not_bishop_attack move
  | some .bB =>
    if st.board.black_bishop &&& from_bitboard == 0 then false
    else !Position.is_not_bishop_attack move
  | _ => false

def Position.is_legal_queen_move (st : Position) (move : Move) : Bool :=
  let from_bitboard := set_bit 0 move.from_square
  match move.piece with
  | some .wQ =>
    if st.board.white_queen &&& from_bitboard == 0 then false
    else !Position.is_not_queen_attack move
  | some .bQ =>
    if st.board.black_queen &&& from_bitboard == 0 then false
    else !Position.is_not_queen_attack move
  | _ => false

/-- Embedding of `Position.is_legal_king_move`: the destination must lie in
the static one-step king attack table for the origin square; the castling
destinations g1/c1/g8/c8 are never members of that table. -/
def Position.is_legal_king_move (st : Position) (move : Move) : Bool :=
  let from_bitboard := set_bit 0 move.from_square
  match move.piece with
  | some .wK =>
    if st.board.white_king &&& from_bitboard == 0 then false
    else !Position.is_not_king_attack move
  | some .bK =>
    if st.board.black_king &&& from_bitboard == 0 then false
    else !Position.is_not_king_attack move
  | _ => false

/-! ### Castling helpers -/

/-- Modelled from the spec: `CastleRoute` masks cover every square the king
transits, start and end included (e1-f1-g1, e1-d1-c1 and the rank-8
mirrors).  The masks only feed `can_castle`, whose result
`update_legal_king_moves` discards. -/
def CastleRoute.WhiteKingside : Nat := set_bit_multi 0 [4, 5, 6]

def CastleRoute.WhiteQueenside : Nat := set_bit_multi 0 [2, 3, 4]

def CastleRoute.BlackKingside : Nat := set_bit_multi 0 [60, 61, 62]

def CastleRoute.BlackQueenside : Nat := set_bit_multi 0 [58, 59, 60]

/-- Embedding of `Position.can_castle`.  In the Black branch the source
writes `not kingside_block.any() & rookH8.any()`, which Python parses as
`not (kingside_block.any() & rookH8.any())`; the embedding keeps that
precedence. -/
def Position.can_castle (st : Position) (colour_to_move : Colour) : Bool × Bool :=
  let castle_rights := st.castle_rights colour_to_move
  if !castle_rights.1 && !castle_rights.2 then (false, false)
  else
    match colour_to_move with
    | .white =>
      let kingside :=
        if castle_rights.1 then
          let kingside_block := (st.black_attacked_squares |||
            (st.board.white_pieces &&& compl64 st.board.white_king)) &&&
            CastleRoute.WhiteKingside
          let rookH1 := st.board.white_rook &&& set_bit 0 7
          kingside_block == 0 && rookH1 != 0
        else false
      let queenside :=
        if castle_rights.2 then
          let queenside_block := (st.black_attacked_squares |||
            (st.board.white_pieces &&& compl64 st.board.white_king)) &&&
            CastleRoute.WhiteQueenside
          let rookA1 := st.board.white_rook &&& set_bit 0 0
          queenside_block == 0 && rookA1 != 0
        else false
      (kingside, queenside)
    | .black =>
      let kingside :=
        if castle_rights.1 then
          let kingside_block := (st.white_attacked_squares |||
            (st.board.black_pieces &&& compl64 st.board.black_king)) &&&
            CastleRoute.BlackKingside
          let rookH8 := st.board.black_rook &&& set_bit 0 63
          !(kingside_block != 0 && rookH8 != 0)
        else false
      let queenside :=
        if castle_rights.2 then
          let queenside_block := (st.white_attacked_squares |||
            (st.board.black_pieces &&& compl64 st.board.black_king)) &&&
            CastleRoute.BlackQueenside
          let rookA8 := st.board.black_rook &&& set_bit 0 56
          !(queenside_block != 0 && rookA8 != 0)
        else false
      (kingside, queenside)

/-- Embedding of the static method `Position.add_castling_moves`; no caller
passes its result anywhere (dead code in the source). -/
def Position.add_castling_moves (bitboard : Nat) (can_castle : Bool × Bool)
    (colour_to_move : Colour) : Nat :=
  match colour_to_move with
  | .white =>
    let bitboard := if can_castle.1 then bitboard ||| set_bit bitboard 6 else bitboard
    if can_castle.2 then bitboard ||| set_bit bitboard 2 else bitboard
  | .black =>
    let bitboard := if can_castle.1 then bitboard ||| set_bit bitboard 62 else bitboard
    if can_castle.2 then bitboard ||| set_bit bitboard 58 else bitboard

/-! ### Dynamic attack recomputation (`update_legal_*`, lines 917-1143) -/

/-- Embedding of `Position.update_legal_pawn_moves`: first both aggregate
pawn-attack properties are copied into the dynamic fields, then the moving
colour's fields are overwritten with the static tables of `from_square`
(motion masked by empty squares, attacks optionally noting the en-passant
target); the `legal_moves` value pruned of own-piece targets is computed but
never stored. -/
def Position.update_legal_pawn_moves (st : Position) (from_square : Nat)
    (colour_to_move : Colour) : Position :=
  let legal_motion : Nat :=
    match colour_to_move with
    | .white => generate_white_pawn_move_bitboard from_square &&& st.board.empty_squares
    | .black => generate_black_pawn_move_bitboard from_square &&& st.board.empty_squares
  let legal_attacks : Nat :=
    match colour_to_move with
    | .white => generate_white_pawn_attack_bitboard from_square
    | .black => generate_black_pawn_attack_bitboard from_square
  let legal_attacks :=
    match st.en_passant_target with
    | some t =>
      if t ≠ 0 then
        let en_passant := set_bit 0 t
        let en_passant_move := legal_attacks &&& en_passant
        if en_passant_move ≠ 0 then legal_attacks ||| en_passant_move else legal_attacks
      else legal_attacks
    | none => legal_attacks
  match colour_to_move with
  | .white =>
    { st with
      black_pawn_attacks := st.board.black_pawn_attacks
      white_pawn_attacks := legal_attacks
      white_pawn_moves := legal_motion }
  | .black =>
    { st with
      white_pawn_attacks := st.board.white_pawn_attacks
      black_pawn_attacks := legal_attacks
      black_pawn_moves := legal_motion }

/-- Ray-and-blocker computation of `Position.update_legal_rook_moves`.  The
east blocker is truncated with `north_ray` and the west blocker with
`south_ray`, exactly as in the source. -/
def Position.rook_ray_moves (st : Position) (from_square : Nat) :
    Except String Nat := do
  let occupied := st.board.occupied_squares
  let north := north_ray 0 (from_square : Int)
  let north ←
    if occupied &&& north ≠ 0 then do
      let first_block ← forward_bitscan (occupied &&& north)
      pure (north ^^^ north_ray 0 (first_block : Int))
    else pure north
  let south := south_ray 0 (from_square : Int)
  let south ←
    if occupied &&& south ≠ 0 then do
      let first_block ← backward_bitscan (occupied &&& south)
      pure (south ^^^ south_ray 0 (first_block : Int))
    else pure south
  let east := east_ray 0 (from_square : Int)
  let east ←
    if occupied &&& east ≠ 0 then do
      let first_block ← forward_bitscan (occupied &&& east)
      pure (east ^^^ north_ray 0 (first_block : Int))
    else pure east
  let west := west_ray 0 (from_square : Int)
  let west ←
    if occupied &&& west ≠ 0 then do
      let first_block ← backward_bitscan (occupied &&& west)
      pure (west ^^^ south_ray 0 (first_block : Int))
    else pure west
  pure (north ||| south ||| east ||| west)

/-- Storing half of `Position.update_legal_rook_moves`: prune own-piece
targets from the ray moves and write the moving colour's rook attack field,
returning the stored bitboard as the source does. -/
def Position.update_legal_rook_moves (st : Position) (from_square : Nat)
    (colour_to_move : Colour) : Except String (Position × Nat) :=
  (st.rook_ray_moves from_square).map fun legal_moves =>
    let own_piece_targets := st.occupied_squares_by_colour colour_to_move
    let legal_moves :=
      if own_piece_targets ≠ 0 then legal_moves &&& compl64 own_piece_targets else legal_moves
    match colour_to_move with
    | .white => ({ st with white_rook_attacks := legal_moves }, legal_moves)
    | .black => ({ st with black_rook_attacks := legal_moves }, legal_moves)

/-- Embedding of `Position.update_legal_knight_moves`. -/
def Position.update_legal_knight_moves (st : Position) (from_square : Nat)
    (colour_to_move : Colour) : Position :=
  let legal_knight_moves := generate_knight_attack_bitboard from_square
  match colour_to_move with
  | .white =>
    { st with white_knight_attacks := legal_knight_moves &&& compl64 st.board.white_pieces }
  | .black =>
    { st with black_knight_attacks := legal_knight_moves &&& compl64 st.board.black_pieces }

/-- Ray-and-blocker computation of `Position.update_legal_bishop_moves`
(forward scans for the two northern diagonals, backward scans for the two
southern ones). -/
def Position.bishop_ray_moves (st : Position) (from_square : Nat) :
    Except String Nat := do
  let occupied := st.board.occupied_squares
  let northeast := northeast_ray 0 (from_square : Int)
  let northeast ←
    if northeast &&& occupied ≠ 0 then do
      let first_block ← forward_bitscan (northeast &&& occupied)
      pure (northeast ^^^ northeast_ray 0 (first_block : Int))
    else pure northeast
  let northwest := northwest_ray 0 (from_square : Int)
  let northwest ←
    if northwest &&& occupied ≠ 0 then do
      let first_block ← forward_bitscan (northwest &&& occupied)
      pure (northwest ^^^ northwest_ray 0 (first_block : Int))
    else pure northwest
  let southeast := southeast_ray 0 (from_square : Int)
  let southeast ←
    if southeast &&& occupied ≠ 0 then do
      let first_block ← backward_bitscan (southeast &&& occupied)
      pure (southeast ^^^ southeast_ray 0 (first_block : Int))
    else pure southeast
  let southwest := southwest_ray 0 (from_square : Int)
  let southwest ←
    if southwest &&& occupied ≠ 0 then do
      let first_block ← backward_bitscan (southwest &&& occupied)
      pure (southwest ^^^ southwest_ray 0 (first_block : Int))
    else pure southwest
  pure (northeast ||| northwest ||| southeast ||| southwest)

/-- Storing half of `Position.update_legal_bishop_moves`. -/
def Position.update_legal_bishop_moves (st : Position) (from_square : Nat)
    (colour_to_move : Colour) : Except String (Position × Nat) :=
  (st.bishop_ray_moves from_square).map fun legal_moves =>
    let own_piece_targets := st.occupied_squares_by_colour colour_to_move
    let legal_moves :=
      if own_piece_targets ≠ 0 then legal_moves &&& compl64 own_piece_targets else legal_moves
    match colour_to_move with
    | .white => ({ st with white_bishop_attacks := legal_moves }, legal_moves)
    | .black => ({ st with black_bishop_attacks := legal_moves }, legal_moves)

/-- Embedding of `Position.update_legal_queen_moves`: runs the bishop and
rook updates (which overwrite the bishop and rook attack fields) and stores
their union in the queen field; an exception in either update propagates. -/
def Position.update_legal_queen_moves (st : Position) (from_square : Nat)
    (colour_to_move : Colour) : Except String Position :=
  match st.update_legal_bishop_moves from_square colour_to_move with
  | .error e => .error e
  | .ok (st, diagonal_moves) =>
    match st.update_legal_rook_moves from_square colour_to_move with
    | .error e => .error e
    | .ok (st, rankfile_moves) =>
      let legal_moves := diagonal_moves ||| rankfile_moves
      match colour_to_move with
      | .white => .ok { st with white_queen_attacks := legal_moves }
      | .black => .ok { st with black_queen_attacks := legal_moves }

/-- Embedding of `Position.update_legal_king_moves`: computes the one-step
king moves pruned of own-piece targets and the `can_castle` verdict, but
stores neither — the function returns with the position unchanged. -/
def Position.update_legal_king_moves (st : Position) (from_square : Nat)
    (colour_to_move : Colour) : Position :=
  let king_moves := generate_king_attack_bitboard from_square
  let own_piece_targets :=
    match colour_to_move with
    | .white => st.board.white_pieces
    | .black => st.board.black_pieces
  let _king_moves :=
    if own_piece_targets ≠ 0 then king_moves &&& compl64 own_piece_targets else king_moves
  let _can_castle := st.can_castle colour_to_move
  st

/-- Left fold with exception propagation, the shape of every Python `for`
loop in `update_attack_bitboards` whose body can raise. -/
def foldPosM {a : Type} (f : Position → a → Except String Position) :
    List a → Position → Except String Position
  | [], s => .ok s
  | x :: l, s =>
    match f s x with
    | .error e => .error e
    | .ok s1 => foldPosM f l s1

/-- One iteration of the `update_attack_bitboards` dispatch for a single
change-map entry: the piece kind's dynamic bitboard is zeroed and the
corresponding `update_legal_*` routine runs for each square of the entry. -/
def Position.update_attack_entry (st : Position) (entry : Piece × SquareSet) :
    Except String Position :=
  match entry.1 with
  | .wP => .ok (entry.2.foldl
      (fun s square => Position.update_legal_pawn_moves
        { s with white_pawn_attacks := 0, white_pawn_moves := 0 } square .white) st)
  | .bP => .ok (entry.2.foldl
      (fun s square => Position.update_legal_pawn_moves
        { s with black_pawn_attacks := 0, black_pawn_moves := 0 } square .black) st)
  | .wR => foldPosM
      (fun s square => (Position.update_legal_rook_moves
        { s with white_rook_attacks := 0 } square .white).map Prod.fst) entry.2 st
  | .bR => foldPosM
      (fun s square => (Position.update_legal_rook_moves
        { s with black_rook_attacks := 0 } square .black).map Prod.fst) entry.2 st
  | .wN => .ok (entry.2.foldl
      (fun s square => Position.update_legal_knight_moves
        { s with white_knight_attacks := 0 } square .white) st)
  | .bN => .ok (entry.2.foldl
      (fun s square => Position.update_legal_knight_moves
        { s with black_knight_attacks := 0 } square .black) st)
  | .wB => foldPosM
      (fun s square => (Position.update_legal_bishop_moves
        { s with white_bishop_attacks := 0 } square .white).map Prod.fst) entry.2 st
  | .bB => foldPosM
      (fun s square => (Position.update_legal_bishop_moves
        { s with black_bishop_attacks := 0 } square .black).map Prod.fst) entry.2 st
  | .wQ => foldPosM
      (fun s square => Position.update_legal_queen_moves
        { s with white_queen_attacks := 0 } square .white) entry.2 st
  | .bQ => foldPosM
      (fun s square => Position.update_legal_queen_moves
        { s with black_queen_attacks := 0 } square .black) entry.2 st
  | .wK => .ok (entry.2.foldl
      (fun s square => Position.update_legal_king_moves
        { s with white_king_attacks := 0 } square .white) st)
  | .bK => .ok (entry.2.foldl
      (fun s square => Position.update_legal_king_moves
        { s with black_king_attacks := 0 } square .black) st)

/-- Embedding of `Position.update_attack_bitboards`: the dispatch above,
folded over the change map in its iteration order. -/
def Position.update_attack_bitboards (st : Position)
    (change_map : List (Piece × SquareSet)) : Except String Position :=
  foldPosM Position.update_attack_entry change_map st

/-- Embedding of `Position.evaluate_king_check`: `king_in_check[0]` tracks
the white king, `king_in_check[1]` the black king. -/
def Position.evaluate_king_check (st : Position) : Position :=
  { st with
    king_in_check :=
      (st.black_attacked_squares &&& st.board.white_king != 0,
       st.white_attacked_squares &&& st.board.black_king != 0) }

/-! ### Move validation dispatch and result construction -/

/-- Embedding of `Position.is_legal_move` (lines 403-448).  The function can
mutate both the move (capture/promotion/castling flags) and the position
(en-passant bookkeeping in the pawn branch), so the embedding returns the
verdict together with the updated position and move.  A `piece` outside the
12 kinds falls through every dispatch arm and Python returns `None`, which
the caller treats as false. -/
def Position.is_legal_move (st : Position) (move : Move) : Bool × Position × Move :=
  let move := if st.is_capture move then { move with is_capture := true } else move
  match move.piece with
  | some .wP | some .bP =>
    if !st.is_legal_pawn_move move then (false, st, move)
    else if Position.is_promotion move then (true, st, { move with is_promotion := true })
    else
      let en_passant_target := Position.get_en_passant_target move
      let st :=
        match en_passant_target with
        | some t =>
          if t ≠ 0 then { st with en_passant_side := move.colour, en_passant_target := some t }
          else st
        | none => st
      let st :=
        if some move.to_square = st.en_passant_target then
          { st with is_en_passant_capture := true }
        else st
      (true, st, move)
  | some .wN | some .bN => (st.is_legal_knight_move move, st, move)
  | some .wR | some .bR => (st.is_legal_rook_move move, st, move)
  | some .wB | some .bB => (st.is_legal_bishop_move move, st, move)
  | some .wQ | some .bQ => (st.is_legal_queen_move move, st, move)
  | some .wK | some .bK =>
    if !st.is_legal_king_move move then (false, st, move)
    else if Position.is_castling move then (true, st, { move with is_castling := true })
    else (true, st, move)
  | none => (false, st, move)

def make_illegal_move_result : MoveResult :=
  { is_illegal_move := true, fen := none }

def make_move_result : MoveResult :=
  { fen := none }

def make_checkmate_result : MoveResult :=
  { is_checkmate := true, fen := none }

/-- Embedding of `Position.remove_opponent_piece`: scans `piece_map` in dict
insertion order for the first piece kind holding `to_square`; if none does,
`self.piece_map[None]` raises a `KeyError`. -/
def Position.remove_opponent_piece (st : Position) (to_square : Nat) :
    Except String Position :=
  match pieceOrder.find? (fun p => to_square ∈ st.piece_map.get p) with
  | some target =>
    .ok { st with
      piece_map := st.piece_map.set target ((st.piece_map.get target).filter (· ≠ to_square)) }
  | none => .error "KeyError: piece_map lookup with key None"

/-- Modelled from the spec: `Position.promote_pawn` resolves the replacement
piece through the external promotion collaborator (a blocking `input()`
prompt, declared out of scope by the spec), so the embedding cannot complete
it purely.  No theorem below reaches a promoting move. -/
def Position.promote_pawn (_st : Position) (_move : Move) : Except String Position :=
  .error "promotion requires the external promotion-choice collaborator"

/-- Embedding of `Position.move_rooks_for_castling` (`H1 = 7`, `F1 = 5`,
`A1 = 0`, `D1 = 3` and the rank-8 mirrors). -/
def Position.move_rooks_for_castling (st : Position) (move : Move) :
    Except String Position := do
  let rook : Piece := match move.colour with | .white => .wR | .black => .bR
  let pair : Nat × Nat ←
    if move.to_square = 6 then pure (7, 5)
    else if move.to_square = 2 then pure (0, 3)
    else if move.to_square = 62 then pure (63, 61)
    else if move.to_square = 58 then pure (56, 59)
    else .error "KeyError: square_map"
  let squares ← (st.piece_map.get rook).removeE pair.1
  pure { st with piece_map := st.piece_map.set rook (SquareSet.insert squares pair.2) }

/-- Embedding of `Position.adjust_castling_rights`.  For a white king move
the source assigns `[0, 0]`; for a black king move it writes
`self.castle_rights[Colour.BLACK] == [0, 0]` — a comparison, not an
assignment — so Black's rights are left untouched.  Rook moves revoke the
wing whose home corner was vacated. -/
def Position.adjust_castling_rights (st : Position) (move : Move) : Position :=
  match move.piece with
  | some .wK => { st with castle_rights_white := (false, false) }
  | some .bK => st
  | some .wR =>
    let kingside := if move.from_square == 7 then false else st.castle_rights_white.1
    let queenside := if move.from_square == 0 then false else st.castle_rights_white.2
    { st with castle_rights_white := (kingside, queenside) }
  | some .bR =>
    let kingside := if move.from_square == 63 then false else st.castle_rights_black.1
    let queenside := if move.from_square == 56 then false else st.castle_rights_black.2
    { st with castle_rights_black := (kingside, queenside) }
  | _ => st

/-! ### `has_any_moves` probing (lines 237-401) -/

/-- Embedding of `Position.has_king_move`.  The source builds probe moves
with `from_square = self.piece_map[king_piece].copy()` — a set, not a square
— so as soon as the filtered king attack board is nonzero the probe raises a
`TypeError` inside `set_bit`; the zero-board early return is the only
completing path (and the king boards stay zero, see the C9 theorem). -/
def Position.has_king_move (st : Position) (colour_to_move : Colour) :
    Except String Bool :=
  let king_attacks :=
    (match colour_to_move with
      | .white => st.white_king_attacks
      | .black => st.black_king_attacks) &&&
    compl64
      (match colour_to_move.flip with
        | .white => st.white_attacked_squares
        | .black => st.black_attacked_squares)
  if king_attacks == 0 then .ok false
  else .error "TypeError: from_square is a set, not an int"

def Position.has_queen_move (st : Position) (colour_to_move : Colour) : Bool :=
  let queen_attacks :=
    match colour_to_move with
    | .white => st.white_queen_attacks
    | .black => st.black_queen_attacks
  let queen_piece : Piece :=
    match colour_to_move with
    | .white => .wQ
    | .black => .bQ
  if queen_attacks == 0 then false
  else
    (st.piece_map.get queen_piece).any fun from_square =>
      (bitboard_to_squares queen_attacks).any fun to_square =>
        st.is_legal_queen_move { piece := some queen_piece, from_square, to_square }

def Position.has_knight_move (st : Position) (colour_to_move : Colour) : Bool :=
  let knight_attacks :=
    match colour_to_move with
    | .white => st.white_knight_attacks
    | .black => st.black_knight_attacks
  let knight_piece : Piece :=
    match colour_to_move with
    | .white => .wN
    | .black => .bN
  if knight_attacks == 0 then false
  else
    (st.piece_map.get knight_piece).any fun from_square =>
      (bitboard_to_squares knight_attacks).any fun to_square =>
        st.is_legal_knight_move { piece := some knight_piece, from_square, to_square }

def Position.has_bishop_move (st : Position) (colour_to_move : Colour) : Bool :=
  let bishop_attacks :=
    match colour_to_move with
    | .white => st.white_bishop_attacks
    | .black => st.black_bishop_attacks
  let bishop_piece : Piece :=
    match colour_to_move with
    | .white => .wB
    | .black => .bB
  if bishop_attacks == 0 then false
  else
    (st.piece_map.get bishop_piece).any fun from_square =>
      (bitboard_to_squares bishop_attacks).any fun to_square =>
        st.is_legal_bishop_move { piece := some bishop_piece, from_square, to_square }

def Position.has_rook_move (st : Position) (colour_to_move : Colour) : Bool :=
  let rook_attacks :=
    match colour_to_move with
    | .white => st.white_rook_attacks
    | .black => st.black_rook_attacks
  let rook_piece : Piece :=
    match colour_to_move with
    | .white => .wR
    | .black => .bR
  if rook_attacks == 0 then false
  else
    (st.piece_map.get rook_piece).any fun from_square =>
      (bitboard_to_squares rook_attacks).any fun to_square =>
        st.is_legal_rook_move { piece := some rook_piece, from_square, to_square }

def Position.has_pawn_move (st : Position) (colour_to_move : Colour) : Bool :=
  let pawn_attacks :=
    match colour_to_move with
    | .white => st.white_pawn_attacks ||| st.white_pawn_moves
    | .black => st.black_pawn_attacks ||| st.black_pawn_moves
  let pawn_piece : Piece :=
    match colour_to_move with
    | .white => .wP
    | .black => .bP
  if pawn_attacks == 0 then false
  else
    (st.piece_map.get pawn_piece).any fun from_square =>
      (bitboard_to_squares pawn_attacks).any fun to_square =>
        st.is_legal_pawn_move { piece := some pawn_piece, from_square, to_square }

/-- Embedding of `Position.has_any_moves`. -/
def Position.has_any_moves (st : Position) (colour_to_move : Colour) :
    Except String Bool := do
  let king ← st.has_king_move colour_to_move
  if king then pure true
  else if st.has_queen_move colour_to_move then pure true
  else if st.has_rook_move colour_to_move then pure true
  else if st.has_knight_move colour_to_move then pure true
  else if st.has_bishop_move colour_to_move then pure true
  else if st.has_pawn_move colour_to_move then pure true
  else pure false

/-- The change map built in `make_move` line 215: the piece kinds whose
square set differs from the pre-move copy, in dict insertion order, paired
with their new square sets. -/
def changeMap (pm original : PieceMap) : List (Piece × SquareSet) :=
  (pieceOrder.filter fun p => pm.get p ≠ original.get p).map fun p => (p, pm.get p)

/-- Capture and en-passant removal phase of `make_move` (lines 178-188):
reset the halfmove clock and take the captured piece off the `piece_map`,
then (for a live en-passant capture) the pawn one rank behind the target,
then clear the `is_en_passant_capture` flag. -/
def Position.make_move_captures (st : Position) (move : Move) :
    Except String Position := do
  let st ←
    if move.is_capture then
      Position.remove_opponent_piece { st with halfmove_clock := 0 } move.to_square
    else pure st
  let st ←
    if st.is_en_passant_capture then
      match move.colour with
      | .white => st.remove_opponent_piece (move.to_square - 8)
      | .black => st.remove_opponent_piece (move.to_square + 8)
    else pure st
  pure { st with is_en_passant_capture := false }

/-- Piece relocation phase of `make_move` (lines 190-203): pawn clock reset,
`piece_map` move, promotion, castling rook relocation, clock increments. -/
def Position.make_move_relocate (st : Position) (move : Move) :
    Except String Position := do
  let st :=
    if move.piece == some Piece.wP || move.piece == some Piece.bP then
      { st with halfmove_clock := 0 }
    else st
  let piece ←
    match move.piece with
    | some p => pure p
    | none => Except.error "KeyError: piece_map lookup with key None"
  let squares ← (st.piece_map.get piece).removeE move.from_square
  let st :=
    { st with piece_map := st.piece_map.set piece (SquareSet.insert squares move.to_square) }
  let st ← if move.is_promotion then st.promote_pawn move else pure st
  let st ← if move.is_castling then st.move_rooks_for_castling move else pure st
  pure { st with halfmove_clock := st.halfmove_clock + 1, halfmove := st.halfmove + 1 }

/-- Bookkeeping and recomputation phase of `make_move` (lines 205-219):
castling-rights adjustment, en-passant clearing, change map, board bitboard
rewrite, dynamic attack recomputation, king check evaluation. -/
def Position.make_move_recompute (st : Position) (move : Move)
    (original_piece_map : PieceMap) : Except String Position := do
  let castle_rights := st.castle_rights move.colour
  let st := if castle_rights.1 || castle_rights.2 then st.adjust_castling_rights move else st
  let st :=
    if st.en_passant_side ≠ move.colour then { st with en_passant_target := none } else st
  let change_map := changeMap st.piece_map original_piece_map
  let st := { st with board := st.board.update_position_bitboards change_map }
  let st ← st.update_attack_bitboards change_map
  pure st.evaluate_king_check

/-- Outcome phase of `make_move` (lines 221-232): rollback on self-check,
checkmate probe for the opponent, otherwise flip the side to move. -/
def Position.make_move_outcome (st : Position) (move : Move)
    (original_position : Position) : Except String (Position × MoveResult) := do
  let mover_in_check :=
    match move.colour with
    | .white => st.king_in_check.1
    | .black => st.king_in_check.2
  if mover_in_check then
    return (snapshotRestore original_position, make_illegal_move_result)
  let other_player := move.colour.flip
  let other_in_check :=
    match other_player with
    | .white => st.king_in_check.1
    | .black => st.king_in_check.2
  if other_in_check then
    let any_moves ← st.has_any_moves other_player
    if !any_moves then
      return (st, make_checkmate_result)
  return ({ st with colour_to_move := st.colour_to_move.flip }, make_move_result)

/-- Embedding of `Position.make_move` (lines 162-232): snapshot, turn check,
validation, then the capture / relocation / recomputation / outcome phases
above in source order. -/
def Position.make_move (st : Position) (move : Move) :
    Except String (Position × MoveResult) := do
  let original_position := st
  let original_piece_map := st.piece_map
  if st.colour_to_move ≠ move.colour then
    return (st, make_illegal_move_result)
  let (legal, st, move) := st.is_legal_move move
  if !legal then
    return (st, make_illegal_move_result)
  let st ← st.make_move_captures move
  let st ← st.make_move_relocate move
  let st ← st.make_move_recompute move original_piece_map
  st.make_move_outcome move original_position

/-! ### Concrete positions for the claim theorems -/

/-- The move descriptor the GUI builds for White's e2-e4 (square 12 to 28). -/
def e2e4 : Move := { piece := some .wP, from_square := 12, to_square := 28 }

/-- Position exercising the rollback path: White king on e1 (4), Black rook
on d2 (11) whose stored dynamic rook attack bitboard is exactly what
`update_legal_rook_moves` computes for it (it covers e2 but not e1), Black
king on e8 (60).  The dynamic white knight attack board is `2^20` while the
white pawn attack board is `0`, so a faithful snapshot has to restore the two
slots differently. -/
def c1Position : Position where
  board :=
    { white_pawn := 0, white_rook := 0, white_knight := 0, white_bishop := 0,
      white_queen := 0, white_king := set_bit 0 4,
      black_pawn := 0, black_rook := set_bit 0 11, black_knight := 0, black_bishop := 0,
      black_queen := 0, black_king := set_bit 0 60 }
  piece_map :=
    { wP := [], wR := [], wN := [], wB := [], wQ := [], wK := [4],
      bP := [], bR := [11], bN := [], bB := [], bQ := [], bK := [60] }
  colour_to_move := .white
  castle_rights_white := (false, false)
  castle_rights_black := (false, false)
  halfmove_clock := 0
  halfmove := 10
  en_passant_target := none
  en_passant_side := .white
  is_en_passant_capture := false
  king_in_check := (false, false)
  white_pawn_moves := 0
  white_pawn_attacks := 0
  white_rook_attacks := 0
  white_knight_attacks := 1 <<< 20
  white_bishop_attacks := 0
  white_queen_attacks := 0
  white_king_attacks := 0
  black_pawn_moves := 0
  black_pawn_attacks := 0
  black_rook_attacks := set_bit_multi 0 [3, 8, 9, 10, 12, 13, 19, 27, 35, 43, 51, 59]
  black_knight_attacks := 0
  black_bishop_attacks := 0
  black_queen_attacks := 0
  black_king_attacks := 0

/-- The initial position with the g1 knight and f1 bishop gone: White keeps
both castling rights, f1 and g1 are empty, a white rook stands on h1, and no
square of the e1-f1-g1 route is attacked by Black (all Black dynamic attack
bitboards are zero). -/
def c2Position : Position :=
  { initialPosition with
    board := { initialBoard with white_knight := set_bit 0 1, white_bishop := set_bit 0 2 }
    piece_map := { initialPieceMap with wN := [1], wB := [2] } }

/-- Bare-kings position with Black to move and Black still holding both
castling rights. -/
def c3Position : Position :=
  { initialPosition with
    board :=
      { white_pawn := 0, white_rook := 0, white_knight := 0, white_bishop := 0,
        white_queen := 0, white_king := set_bit 0 4,
        black_pawn := 0, black_rook := 0, black_knight := 0, black_bishop := 0,
        black_queen := 0, black_king := set_bit 0 60 }
    piece_map :=
      { wP := [], wR := [], wN := [], wB := [], wQ := [], wK := [4],
        bP := [], bR := [], bN := [], bB := [], bQ := [], bK := [60] }
    colour_to_move := .black
    en_passant_side := .black }

/-- The same bare-kings position with White to move, for the contrast case of
claim C3 (a white king move does revoke White's rights). -/
def c3PositionWhite : Position :=
  { c3Position with colour_to_move := .white, en_passant_side := .white }

/-- The initial position with an extra black knight on e3 (20), the square a
double push e2-e4 passes over. -/
def c4Position : Position :=
  { initialPosition with
    board := { initialBoard with black_knight := set_bit_multi 0 [20, 57, 62] }
    piece_map := { initialPieceMap with bN := [20, 57, 62] } }

/-- The initial position with an extra white knight on e4 (28), the
destination of the double push e2-e4. -/
def c4PositionB : Position :=
  { initialPosition with
    board := { initialBoard with white_knight := set_bit_multi 0 [1, 6, 28] }
    piece_map := { initialPieceMap with wN := [1, 6, 28] } }

/-- Claim C1 (code bug witness).  A move rejected for self-check (White king
e1-e2 into the Black rook's stored attack set) does reach the rollback, and
the rolled-back state is exactly `snapshotRestore` of the pre-call position —
but because `PositionState.__init__` copies `kwargs['white_pawn_attacks']`
into the knight/rook/bishop/queen/king snapshot slots, the restored
`white_knight_attacks` is the pre-move pawn attack board `0`, not its
pre-call value `2^20`: the position after the call is not deep-equal to the
pre-call position. -/
theorem claim1_rollback_not_deep_equal :
    c1Position.make_move { piece := some .wK, from_square := 4, to_square := 12 } =
      .ok (snapshotRestore c1Position, make_illegal_move_result) ∧
    (snapshotRestore c1Position).white_knight_attacks = 0 ∧
    c1Position.white_knight_attacks = 1 <<< 20 ∧
    (1 <<< 20 : Nat) ≠ 0 :=
  ⟨rfl, rfl, rfl, by decide⟩

/-- Claim C2 (code bug witness).  In a position satisfying every castling
precondition of the claim — kingside right held, f1 and g1 empty, white rook
on h1, none of e1/f1/g1 in Black's attacked squares — `make_move` on e1-g1
returns an illegal-move result with the position unchanged:
`is_legal_king_move` only accepts destinations of the static one-step king
table, and the castling destinations computed by `can_castle` /
`add_castling_moves` are never wired into it. -/
theorem claim2_kingside_castling_rejected :
    c2Position.make_move { piece := some .wK, from_square := 4, to_square := 6 } =
      .ok (c2Position, make_illegal_move_result) ∧
    c2Position.castle_rights_white.1 = true ∧
    c2Position.board.occupied_squares &&& set_bit_multi 0 [5, 6] = 0 ∧
    c2Position.board.white_rook &&& set_bit 0 7 ≠ 0 ∧
    c2Position.black_attacked_squares &&& CastleRoute.WhiteKingside = 0 :=
  ⟨rfl, rfl, by decide, by decide, rfl⟩

/-- Claim C3 (code bug witness).  Black's king leaves e8 via an accepted
`make_move` (e8-e7), yet both of Black's castling-rights flags are still
true afterwards: `adjust_castling_rights` writes
`self.castle_rights[Colour.BLACK] == [0, 0]`, a comparison instead of an
assignment.  The contrast conjunct shows the same king move by White does
revoke White's rights. -/
theorem claim3_black_king_move_keeps_castle_rights :
    (c3Position.make_move { piece := some .bK, from_square := 60, to_square := 52 }).map
      (fun r => (r.2.is_illegal_move, r.1.castle_rights_black, r.1.piece_map.bK)) =
      .ok (false, (true, true), [52]) ∧
    c3Position.castle_rights_black = (true, true) ∧
    (c3PositionWhite.make_move { piece := some .wK, from_square := 4, to_square := 12 }).map
      (fun r => (r.2.is_illegal_move, r.1.castle_rights_white)) =
      .ok (false, (false, false)) :=
  ⟨rfl, rfl, rfl⟩

/-- Claim C4 (code bug witness).  `is_legal_pawn_move` only applies its
occupancy check to single pushes (`from == to - 8`), so the double push
e2-e4 is accepted by the full `make_move` although the intermediate square
e3 is occupied (the pawn jumps over the black knight), and is likewise
validated although the destination e4 is occupied by White's own knight. -/
theorem claim4_double_push_ignores_blockers :
    (c4Position.make_move e2e4).map
      (fun r => (r.2.is_illegal_move, r.1.piece_map.wP)) =
      .ok (false, [8, 9, 10, 11, 13, 14, 15, 28]) ∧
    Nat.testBit c4Position.board.occupied_squares 20 = true ∧
    c4PositionB.is_legal_pawn_move e2e4 = true ∧
    Nat.testBit c4PositionB.board.occupied_squares 28 = true :=
  ⟨rfl, by decide, by decide, by decide⟩

/-- Claim C5 (code bug witness).  After the accepted pawn move e2-e4 from
the initial position the halfmove clock is 1, not 0: `make_move` resets the
clock for a pawn move or capture and then unconditionally increments it. -/
theorem claim5_halfmove_clock_one_after_pawn_move :
    (initialPosition.make_move e2e4).map
      (fun r => (r.2.is_illegal_move, r.1.halfmove_clock)) = .ok (false, 1) ∧
    initialPosition.halfmove_clock = 0 :=
  ⟨rfl, rfl⟩

/-- Claim C6 (code bug witness).  The static rook attack bitboard of h1
(square 7) contains a2 (square 8), which shares neither rank nor file with
h1: `east_ray` steps through `range(0, from_square % 8)` and wraps past file
H onto the next rank.  The static bishop attack bitboard of h1 contains a3
(square 16), which lies on neither diagonal of h1: `northeast_ray` carries
no file mask. -/
theorem claim6_static_rays_wrap_at_board_edge :
    Nat.testBit (generate_rook_attack_bitboard 7) 8 = true ∧
    (8 / 8 ≠ 7 / 8 ∧ 8 % 8 ≠ 7 % 8) ∧
    Nat.testBit (generate_bishop_attack_bitboard 7) 16 = true ∧
    (16 / 8 + 16 % 8 ≠ 7 / 8 + 7 % 8 ∧ (16 / 8 - 16 % 8 : Int) ≠ (7 / 8 - 7 % 8 : Int)) :=
  ⟨by decide, by decide, by decide, by decide⟩

/-- Claim C7 (code bug witness).  `forward_bitscan` does return the index of
the least significant set bit even when only bit 63 is set, and both
scanners report an error on a zero bitboard — but `backward_bitscan` on a
bitboard whose most significant bit is bit 63 does not return 63: the
smear-and-increment overflows the 64-bit word to zero and `math.log2(0)`
raises. -/
theorem claim7_backward_bitscan_overflows_on_bit63 :
    backward_bitscan (1 <<< 63) = .error "math domain error" ∧
    forward_bitscan (1 <<< 63) = .ok 63 ∧
    backward_bitscan 0 = .error "You can not scan an empty/non-existing bitboard..." ∧
    forward_bitscan 0 = .error "You can not scan an empty/non-existing bitboard..." ∧
    backward_bitscan ((1 <<< 62) ||| 40) = .ok 62 :=
  ⟨rfl, rfl, rfl, rfl, rfl⟩

/-- Claim C8.  From the initial position, `make_move` on e2-e4 returns an
accepted (non-illegal) result, does not leave White's king attacked
(`king_in_check[0]` is 0), and leaves no en-passant target available to
White: the target square it records is e3 (20) with `en_passant_side` equal
to White, i.e. a target created by White's own double push and capturable
only by Black's reply — there is no target White could use. -/
theorem claim8_e2e4_accepted_no_ep_for_white :
    (initialPosition.make_move e2e4).map
      (fun r => (r.2.is_illegal_move, r.1.en_passant_target, r.1.en_passant_side,
        r.1.king_in_check.1, r.1.colour_to_move)) =
      .ok (false, some 20, .white, false, .black) :=
  rfl

/-! ### Helper lemmas on the king attack fields for claim C9 -/

/-- `update_legal_king_moves` stores nothing: the position is returned
unchanged. -/
theorem update_legal_king_moves_eq (st : Position) (sq : Nat) (c : Colour) :
    st.update_legal_king_moves sq c = st := rfl

theorem update_legal_pawn_moves_king (st : Position) (sq : Nat) (c : Colour) :
    (st.update_legal_pawn_moves sq c).white_king_attacks = st.white_king_attacks ∧
    (st.update_legal_pawn_moves sq c).black_king_attacks = st.black_king_attacks := by
  cases c <;> exact ⟨rfl, rfl⟩

theorem update_legal_knight_moves_king (st : Position) (sq : Nat) (c : Colour) :
    (st.update_legal_knight_moves sq c).white_king_attacks = st.white_king_attacks ∧
    (st.update_legal_knight_moves sq c).black_king_attacks = st.black_king_attacks := by
  cases c <;> exact ⟨rfl, rfl⟩

theorem update_legal_rook_moves_king (st : Position) (sq : Nat) (c : Colour)
    (st' : Position) (r : Nat) (h : st.update_legal_rook_moves sq c = .ok (st', r)) :
    st'.white_king_attacks = st.white_king_attacks ∧
    st'.black_king_attacks = st.black_king_attacks := by
  unfold Position.update_legal_rook_moves at h
  cases hr : st.rook_ray_moves sq with
  | error e => rw [hr] at h; simp [Except.map] at h
  | ok lm =>
    rw [hr] at h
    cases c <;>
      · simp only [Except.map, Except.ok.injEq, Prod.mk.injEq] at h
        obtain ⟨h1, -⟩ := h
        subst h1
        exact ⟨rfl, rfl⟩

theorem update_legal_bishop_moves_king (st : Position) (sq : Nat) (c : Colour)
    (st' : Position) (r : Nat) (h : st.update_legal_bishop_moves sq c = .ok (st', r)) :
    st'.white_king_attacks = st.white_king_attacks ∧
    st'.black_king_attacks = st.black_king_attacks := by
  unfold Position.update_legal_bishop_moves at h
  cases hr : st.bishop_ray_moves sq with
  | error e => rw [hr] at h; simp [Except.map] at h
  | ok lm =>
    rw [hr] at h
    cases c <;>
      · simp only [Except.map, Except.ok.injEq, Prod.mk.injEq] at h
        obtain ⟨h1, -⟩ := h
        subst h1
        exact ⟨rfl, rfl⟩

theorem update_legal_queen_moves_king (st : Position) (sq : Nat) (c : Colour)
    (st' : Position) (h : st.update_legal_queen_moves sq c = .ok st') :
    st'.white_king_attacks = st.white_king_attacks ∧
    st'.black_king_attacks = st.black_king_attacks := by
  unfold Position.update_legal_queen_moves at h
  split at h
  · simp at h
  · rename_i st1 diag hb
    split at h
    · simp at h
    · rename_i st2 rf hr
      have hb' := update_legal_bishop_moves_king st sq c st1 diag hb
      have hr' := update_legal_rook_moves_king st1 sq c st2 rf hr
      split at h <;>
        · simp only [Except.ok.injEq] at h
          subst h
          exact ⟨hr'.1.trans hb'.1, hr'.2.trans hb'.2⟩

/-- Preservation of a state projection through a pure fold. -/
theorem foldl_proj_preserve {a : Type} (proj : Position → Nat)
    (f : Position → a → Position) (hf : ∀ s x, proj (f s x) = proj s) :
    ∀ (l : List a) (s : Position), proj (l.foldl f s) = proj s := by
  intro l
  induction l with
  | nil => intro s; rfl
  | cons x l ih => intro s; rw [List.foldl_cons]; exact (ih (f s x)).trans (hf s x)

/-- A fold whose every step zeroes a projection leaves it zero whenever the
list is nonempty. -/
theorem foldl_proj_zero {a : Type} (proj : Position → Nat)
    (f : Position → a → Position) (hf : ∀ s x, proj (f s x) = 0) :
    ∀ (l : List a) (s : Position), l ≠ [] → proj (l.foldl f s) = 0 := by
  intro l
  induction l with
  | nil => intro s h; exact absurd rfl h
  | cons x l ih =>
    intro s _
    rw [List.foldl_cons]
    cases l with
    | nil => exact hf s x
    | cons y m => exact ih (f s x) (by simp)

/-- Preservation of a state projection through `foldPosM`. -/
theorem foldPosM_proj_preserve {a : Type} (proj : Position → Nat)
    (f : Position → a → Except String Position)
    (hf : ∀ s x s1, f s x = .ok s1 → proj s1 = proj s) :
    ∀ (l : List a) (s s' : Position), foldPosM f l s = .ok s' → proj s' = proj s := by
  intro l
  induction l with
  | nil =>
    intro s s' h
    simp only [foldPosM, Except.ok.injEq] at h
    subst h; rfl
  | cons x l ih =>
    intro s s' h
    unfold foldPosM at h
    split at h
    · simp at h
    · rename_i s1 hx
      exact (ih s1 s' h).trans (hf s x s1 hx)

/-- Inversion of `Except.map Prod.fst` hitting `ok`. -/
theorem except_map_fst_ok {x : Except String (Position × Nat)} {s1 : Position}
    (h : x.map Prod.fst = .ok s1) : ∃ r, x = .ok (s1, r) := by
  cases x with
  | error e => simp [Except.map] at h
  | ok pr =>
    obtain ⟨a, b⟩ := pr
    simp only [Except.map, Except.ok.injEq] at h
    exact ⟨b, by rw [h]⟩

/-- Each change-map entry either leaves a king attack field unchanged or
zeroes it: the only writes to the two king fields in the whole
`update_attack_bitboards` dispatch are the `make_uint()` assignments of the
king branches, because `update_legal_king_moves` stores nothing. -/
theorem update_attack_entry_king (s : Position) (e : Piece × SquareSet) (s' : Position)
    (h : s.update_attack_entry e = .ok s') :
    (s'.white_king_attacks = s.white_king_attacks ∨ s'.white_king_attacks = 0) ∧
    (s'.black_king_attacks = s.black_king_attacks ∨ s'.black_king_attacks = 0) := by
  obtain ⟨p, sqs⟩ := e
  cases p with
  | wP =>
    simp only [Position.update_attack_entry, Except.ok.injEq] at h
    subst h
    exact ⟨Or.inl (foldl_proj_preserve _ _
        (fun s sq => (update_legal_pawn_moves_king _ sq .white).1) sqs s),
      Or.inl (foldl_proj_preserve _ _
        (fun s sq => (update_legal_pawn_moves_king _ sq .white).2) sqs s)⟩
  | bP =>
    simp only [Position.update_attack_entry, Except.ok.injEq] at h
    subst h
    exact ⟨Or.inl (foldl_proj_preserve _ _
        (fun s sq => (update_legal_pawn_moves_king _ sq .black).1) sqs s),
      Or.inl (foldl_proj_preserve _ _
        (fun s sq => (update_legal_pawn_moves_king _ sq .black).2) sqs s)⟩
  | wN =>
    simp only [Position.update_attack_entry, Except.ok.injEq] at h
    subst h
    exact ⟨Or.inl (foldl_proj_preserve _ _
        (fun s sq => (update_legal_knight_moves_king _ sq .white).1) sqs s),
      Or.inl (foldl_proj_preserve _ _
        (fun s sq => (update_legal_knight_moves_king _ sq .white).2) sqs s)⟩
  | bN =>
    simp only [Position.update_attack_entry, Except.ok.injEq] at h
    subst h
    exact ⟨Or.inl (foldl_proj_preserve _ _
        (fun s sq => (update_legal_knight_moves_king _ sq .black).1) sqs s),
      Or.inl (foldl_proj_preserve _ _
        (fun s sq => (update_legal_knight_moves_king _ sq .black).2) sqs s)⟩
  | wR =>
    simp only [Position.update_attack_entry] at h
    refine ⟨Or.inl ?_, Or.inl ?_⟩
    · exact foldPosM_proj_preserve _ _ (fun s sq s1 hstep => by
        obtain ⟨r, hr⟩ := except_map_fst_ok hstep
        exact (update_legal_rook_moves_king _ sq .white s1 r hr).1) sqs s s' h
    · exact foldPosM_proj_preserve _ _ (fun s sq s1 hstep => by
        obtain ⟨r, hr⟩ := except_map_fst_ok hstep
        exact (update_legal_rook_moves_king _ sq .white s1 r hr).2) sqs s s' h
  | bR =>
    simp only [Position.update_attack_entry] at h
    refine ⟨Or.inl ?_, Or.inl ?_⟩
    · exact foldPosM_proj_preserve _ _ (fun s sq s1 hstep => by
        obtain ⟨r, hr⟩ := except_map_fst_ok hstep
        exact (update_legal_rook_moves_king _ sq .black s1 r hr).1) sqs s s' h
    · exact foldPosM_proj_preserve _ _ (fun s sq s1 hstep => by
        obtain ⟨r, hr⟩ := except_map_fst_ok hstep
        exact (update_legal_rook_moves_king _ sq .black s1 r hr).2) sqs s s' h
  | wB =>
    simp only [Position.update_attack_entry] at h
    refine ⟨Or.inl ?_, Or.inl ?_⟩
    · exact foldPosM_proj_preserve _ _ (fun s sq s1 hstep => by
        obtain ⟨r, hr⟩ := except_map_fst_ok hstep
        exact (update_legal_bishop_moves_king _ sq .white s1 r hr).1) sqs s s' h
    · exact foldPosM_proj_preserve _ _ (fun s sq s1 hstep => by
        obtain ⟨r, hr⟩ := except_map_fst_ok hstep
        exact (update_legal_bishop_moves_king _ sq .white s1 r hr).2) sqs s s' h
  | bB =>
    simp only [Position.update_attack_entry] at h
    refine ⟨Or.inl ?_, Or.inl ?_⟩
    · exact foldPosM_proj_preserve _ _ (fun s sq s1 hstep => by
        obtain ⟨r, hr⟩ := except_map_fst_ok hstep
        exact (update_legal_bishop_moves_king _ sq .black s1 r hr).1) sqs s s' h
    · exact foldPosM_proj_preserve _ _ (fun s sq s1 hstep => by
        obtain ⟨r, hr⟩ := except_map_fst_ok hstep
        exact (update_legal_bishop_moves_king _ sq .black s1 r hr).2) sqs s s' h
  | wQ =>
    simp only [Position.update_attack_entry] at h
    refine ⟨Or.inl ?_, Or.inl ?_⟩
    · exact foldPosM_proj_preserve _ _ (fun s sq s1 hstep => by
        exact (update_legal_queen_moves_king _ sq .white s1 hstep).1) sqs s s' h
    · exact foldPosM_proj_preserve _ _ (fun s sq s1 hstep => by
        exact (update_legal_queen_moves_king _ sq .white s1 hstep).2) sqs s s' h
  | bQ =>
    simp only [Position.update_attack_entry] at h
    refine ⟨Or.inl ?_, Or.inl ?_⟩
    · exact foldPosM_proj_preserve _ _ (fun s sq s1 hstep => by
        exact (update_legal_queen_moves_king _ sq .black s1 hstep).1) sqs s s' h
    · exact foldPosM_proj_preserve _ _ (fun s sq s1 hstep => by
        exact (update_legal_queen_moves_king _ sq .black s1 hstep).2) sqs s s' h
  | wK =>
    simp only [Position.update_attack_entry, Except.ok.injEq] at h
    subst h
    constructor
    · cases sqs with
      | nil => exact Or.inl rfl
      | cons q qs =>
        exact Or.inr (foldl_proj_zero _ _ (fun s x => by exact rfl) (q :: qs) s (by simp))
    · exact Or.inl (foldl_proj_preserve _ _ (fun s x => by exact rfl) sqs s)
  | bK =>
    simp only [Position.update_attack_entry, Except.ok.injEq] at h
    subst h
    constructor
    · exact Or.inl (foldl_proj_preserve _ _ (fun s x => by exact rfl) sqs s)
    · cases sqs with
      | nil => exact Or.inl rfl
      | cons q qs =>
        exact Or.inr (foldl_proj_zero _ _ (fun s x => by exact rfl) (q :: qs) s (by simp))

/-- Processing a change-map entry for the white king with at least one square
leaves the white king attack field zero. -/
theorem update_attack_entry_wK_zero (s : Position) (sqs : SquareSet) (s' : Position)
    (h : s.update_attack_entry (Piece.wK, sqs) = .ok s') (hn : sqs ≠ []) :
    s'.white_king_attacks = 0 := by
  simp only [Position.update_attack_entry, Except.ok.injEq] at h
  subst h
  exact foldl_proj_zero _ _ (fun s x => by exact rfl) sqs s hn

/-- Processing a change-map entry for the black king with at least one square
leaves the black king attack field zero. -/
theorem update_attack_entry_bK_zero (s : Position) (sqs : SquareSet) (s' : Position)
    (h : s.update_attack_entry (Piece.bK, sqs) = .ok s') (hn : sqs ≠ []) :
    s'.black_king_attacks = 0 := by
  simp only [Position.update_attack_entry, Except.ok.injEq] at h
  subst h
  exact foldl_proj_zero _ _ (fun s x => by exact rfl) sqs s hn

/-- A zero white king attack field survives the rest of the change map. -/
theorem entries_wka_zero_preserved :
    ∀ (cm : List (Piece × SquareSet)) (s s' : Position),
      foldPosM Position.update_attack_entry cm s = .ok s' →
      s.white_king_attacks = 0 → s'.white_king_attacks = 0 := by
  intro cm
  induction cm with
  | nil =>
    intro s s' h hz
    simp only [foldPosM, Except.ok.injEq] at h
    subst h; exact hz
  | cons e rest ih =>
    intro s s' h hz
    unfold foldPosM at h
    split at h
    · simp at h
    · rename_i s1 hx
      rcases (update_attack_entry_king s e s1 hx).1 with heq | h0
      · exact ih s1 s' h (heq.trans hz)
      · exact ih s1 s' h h0

/-- A zero black king attack field survives the rest of the change map. -/
theorem entries_bka_zero_preserved :
    ∀ (cm : List (Piece × SquareSet)) (s s' : Position),
      foldPosM Position.update_attack_entry cm s = .ok s' →
      s.black_king_attacks = 0 → s'.black_king_attacks = 0 := by
  intro cm
  induction cm with
  | nil =>
    intro s s' h hz
    simp only [foldPosM, Except.ok.injEq] at h
    subst h; exact hz
  | cons e rest ih =>
    intro s s' h hz
    unfold foldPosM at h
    split at h
    · simp at h
    · rename_i s1 hx
      rcases (update_attack_entry_king s e s1 hx).2 with heq | h0
      · exact ih s1 s' h (heq.trans hz)
      · exact ih s1 s' h h0

theorem entries_wK_zero :
    ∀ (cm : List (Piece × SquareSet)) (s s' : Position),
      foldPosM Position.update_attack_entry cm s = .ok s' →
      ∀ sqs, (Piece.wK, sqs) ∈ cm → sqs ≠ [] → s'.white_king_attacks = 0 := by
  intro cm
  induction cm with
  | nil => intro s s' h sqs hmem; simp at hmem
  | cons e rest ih =>
    intro s s' h sqs hmem hn
    unfold foldPosM at h
    split at h
    · simp at h
    · rename_i s1 hx
      rcases List.mem_cons.mp hmem with heq | hmem2
    
      · rw [← heq] at hx
        exact entries_wka_zero_preserved rest s1 s' h
          (update_attack_entry_wK_zero s sqs s1 hx hn)
      · exact ih s1 s' h sqs hmem2 hn

theorem entries_bK_zero :
    ∀ (cm : List (Piece × SquareSet)) (s s' : Position),
      foldPosM Position.update_attack_entry cm s = .ok s' →
      ∀ sqs, (Piece.bK, sqs) ∈ cm → sqs ≠ [] → s'.black_king_attacks = 0 := by
  intro cm
  induction cm with
  | nil => intro s s' h sqs hmem; simp at hmem
  | cons e rest ih =>
    intro s s' h sqs hmem hn
    unfold foldPosM at h
    split at h
    · simp at h
    · rename_i s1 hx
      rcases List.mem_cons.mp hmem with heq | hmem2
      · rw [← heq] at hx
        exact entries_bka_zero_preserved rest s1 s' h
          (update_attack_entry_bK_zero s sqs s1 hx hn)
      · exact ih s1 s' h sqs hmem2 hn

/-- Claim C9.  For either colour, any completed `update_attack_bitboards`
call whose change map contains that colour's king (with its nonempty square
set, as `make_move` always builds it) leaves that colour's dynamic king
attack bitboard equal to the zero bitboard: the dispatch zeroes it with
`make_uint()` and `update_legal_king_moves` computes the one-step king
attack set and the castling verdict but stores neither, so king-adjacency
attacks never enter the attacked-squares unions read by
`evaluate_king_check`. -/
theorem claim9_king_attack_bitboards_zeroed (st : Position)
    (change_map : List (Piece × SquareSet)) (st' : Position)
    (h : st.update_attack_bitboards change_map = .ok st') :
    (∀ sqs, (Piece.wK, sqs) ∈ change_map → sqs ≠ [] → st'.white_king_attacks = 0) ∧
    (∀ sqs, (Piece.bK, sqs) ∈ change_map → sqs ≠ [] → st'.black_king_attacks = 0) :=
  ⟨fun sqs hm hn => entries_wK_zero change_map st st' h sqs hm hn,
   fun sqs hm hn => entries_bK_zero change_map st st' h sqs hm hn⟩

/-- Witness for claim C9 at a concrete call: updating the change map of a
white king on e1 and a black king on e8 completes and leaves both dynamic
king attack bitboards zero. -/
theorem claim9_witness :
    initialPosition.white_king_attacks = 0 ∧ initialPosition.black_king_attacks = 0 := by
  have h := claim9_king_attack_bitboards_zeroed initialPosition
    [(Piece.wK, [4]), (Piece.bK, [60])] initialPosition rfl
  exact ⟨h.1 [4] (by simp) (by simp), h.2 [60] (by simp) (by simp)⟩

/-- Claim C10.  For every position and every move whose `piece` field is not
one of the 12 piece kinds (the `None` the GUI produces when the first click
selected an empty square), `make_move` returns the illegal-move result and
the position is returned unchanged in every field: with White to move the
turn check fails (`Move.colour` reports `None` as Black), and with Black to
move the `is_legal_move` dispatch falls through every piece arm and returns
a falsy `None`, both before any mutation. -/
theorem claim10_non_piece_move_rejected (st : Position) (m : Move)
    (h : m.piece = none) :
    st.make_move m = .ok (st, make_illegal_move_result) := by
  have hc : m.colour = Colour.black := by simp [Move.colour, h]
  have hl : st.is_legal_move m =
      (false, st, if st.is_capture m then { m with is_capture := true } else m) := by
    by_cases hcap : st.is_capture m <;> simp [Position.is_legal_move, hcap, h]
  cases hcol : st.colour_to_move with
  | white => simp [Position.make_move, hc, hcol, pure, Except.pure]
  | black => simp [Position.make_move, hc, hcol, hl, pure, Except.pure, Bind.bind, Except.bind]

/-- Witness for claim C10: the GUI's empty-first-click move from the initial
position is rejected and the initial position is returned untouched. -/
theorem claim10_witness :
    initialPosition.make_move { piece := none, from_square := 0, to_square := 0 } =
      .ok (initialPosition, make_illegal_move_result) :=
  claim10_non_piece_move_rejected initialPosition
    { piece := none, from_square := 0, to_square := 0 } rfl
